import Mathlib

/-!
Verification of the fetch-normalize-diff-notify pipeline of the repository
monitor_urbs, which contains two near-duplicate monitors:

* monitor.py     - class MultiSiteMonitor (several sites, per-site state files)
* monitor_urbs.py - class URBSMonitor (one fixed site, one pair of state files)

The development shallowly embeds the pure core of both programs:

* the SHA-256 fingerprint over the UTF-8 encoding of the normalized content
  (hashlib.sha256(content.encode("utf-8")).hexdigest() in both files);
* the BeautifulSoup-based content extraction, modelled on a parsed DOM tree
  (parsing itself is deterministic and is treated as the identity embedding
  of markup into the Node type);
* the per-site fingerprint store (JSON hash file plus content snapshot file),
  with a corrupt constructor standing for an unparseable JSON record;
* the change-detection state machine detect_change of both classes;
* the orchestrating run loop of MultiSiteMonitor, with fetch outcomes made
  explicit so that per-site failure isolation and the single batched
  notification can be stated;
* the site-label derivation get_site_name and the two file-path derivations.

Machine integers do not occur: Python integers are unbounded, and the SHA-256
word arithmetic is carried out on Nat with explicit reduction modulo 2^32.
-/

/-! ## String utilities mirroring the Python primitives used by the sources -/

/-- Python string comparison is lexicographic on code points.  This Boolean
comparator on char lists mirrors it and, unlike the builtin String order, is
fully kernel-computable. -/
def lexLe : List Char → List Char → Bool
  | [], _ => true
  | _ :: _, [] => false
  | a :: as, b :: bs =>
    if a < b then true
    else if b < a then false
    else lexLe as bs

/-- Python style less-or-equal on strings (code-point lexicographic). -/
def strLeB (a b : String) : Prop := lexLe a.data b.data = true

instance : DecidableRel strLeB :=
  fun a b => inferInstanceAs (Decidable (lexLe a.data b.data = true))

/-- sorted(...) of Python on a duplicate-free list of strings: any sorted
permutation is unique, so insertion sort under the code-point order gives
exactly the Python result. -/
def sortStrings (l : List String) : List String := List.insertionSort strLeB l

/-- Whitespace characters removed by str.strip() on the ASCII subset that the
extracted page text can contain. -/
def isPySpace (c : Char) : Bool :=
  c = ' ' || c = '\t' || c = '\n' || c = '\r' || c = '\x0b' || c = '\x0c'

/-- Python str.strip(): drop whitespace from both ends. -/
def pyStrip (s : String) : String :=
  ⟨((s.data.dropWhile isPySpace).reverse.dropWhile isPySpace).reverse⟩

/-- Boolean test that a pattern is an initial segment of a char list. -/
def leadMatch : List Char → List Char → Bool
  | [], _ => true
  | _ :: _, [] => false
  | p :: ps, c :: cs => p == c && leadMatch ps cs

/-- Fuel-driven worker for pyReplace; the fuel is the length of the scanned
list, which bounds the number of recursive steps for any non-empty pattern. -/
def replaceFuel (pat repl : List Char) : Nat → List Char → List Char
  | 0, s => s
  | _ + 1, [] => []
  | fuel + 1, c :: cs =>
    if leadMatch pat (c :: cs) then
      repl ++ replaceFuel pat repl fuel ((c :: cs).drop pat.length)
    else
      c :: replaceFuel pat repl fuel cs

/-- Python str.replace(pat, repl): replace every occurrence, scanning left to
right without overlap.  (The sources only use the non-empty pattern
"www.", for which this agrees with Python.) -/
def pyReplace (s pat repl : String) : String :=
  ⟨replaceFuel pat.data repl.data s.data.length s.data⟩

/-- Python s.split(".")[0]: the prefix before the first dot. -/
def firstLabel (s : String) : String := ⟨s.data.takeWhile (fun c => c ≠ '.')⟩

/-- Python str.upper() on the ASCII labels produced by hostname parsing. -/
def strUpper (s : String) : String := ⟨s.data.map Char.toUpper⟩

/-- Python str.lower() on the ASCII labels produced by hostname parsing. -/
def strLower (s : String) : String := ⟨s.data.map Char.toLower⟩

/-- Remainder of a char list after the first occurrence of "://", if any. -/
def afterScheme : List Char → Option (List Char)
  | [] => none
  | c :: cs =>
    if leadMatch [':', '/', '/'] (c :: cs) then some (cs.drop 2)
    else afterScheme cs

/-- urllib.parse.urlparse(url).netloc for the absolute scheme://host/...
URLs that the monitors are configured with: the text after the first "://"
up to the next "/", "?" or "#" (empty when the URL has no "://"). -/
def netloc (url : String) : String :=
  match afterScheme url.data with
  | none => ""
  | some rest => ⟨rest.takeWhile (fun c => c ≠ '/' && c ≠ '?' && c ≠ '#')⟩

/-! ## SHA-256 over byte lists, word arithmetic on Nat modulo 2^32 -/

/-- Modulus of 32-bit words. -/
def wMod : Nat := 4294967296

/-- Rotate a 32-bit word right by n bits. -/
def rotr (n x : Nat) : Nat := ((x >>> n) ||| (x <<< (32 - n))) % wMod

/-- The 64 SHA-256 round constants of FIPS 180-4 (the first 32 fractional
bits of the cube roots of the first 64 primes), written in decimal. -/
def shaK : List Nat :=
  [1116352408, 1899447441, 3049323471, 3921009573, 961987163,
   1508970993, 2453635748, 2870763221, 3624381080, 310598401,
   607225278, 1426881987, 1925078388, 2162078206, 2614888103,
   3248222580, 3835390401, 4022224774, 264347078, 604807628,
   770255983, 1249150122, 1555081692, 1996064986, 2554220882,
   2821834349, 2952996808, 3210313671, 3336571891, 3584528711,
   113926993, 338241895, 666307205, 773529912, 1294757372,
   1396182291, 1695183700, 1986661051, 2177026350, 2456956037,
   2730485921, 2820302411, 3259730800, 3345764771, 3516065817,
   3600352804, 4094571909, 275423344, 430227734, 506948616,
   659060556, 883997877, 958139571, 1322822218, 1537002063,
   1747873779, 1955562222, 2024104815, 2227730452, 2361852424,
   2428436474, 2756734187, 3204031479, 3329325298]

/-- The eight 32-bit working registers of the compression function. -/
structure Hash8 where
  a : Nat
  b : Nat
  c : Nat
  d : Nat
  e : Nat
  f : Nat
  g : Nat
  h : Nat

/-- Initial SHA-256 hash value of FIPS 180-4 (the first 32 fractional bits
of the square roots of the first 8 primes), written in decimal. -/
def shaInit : Hash8 :=
  ⟨1779033703, 3144134277, 1013904242, 2773480762,
   1359893119, 2600822924, 528734635, 1541459225⟩

/-- Big sigma-0 round function. -/
def bigSigma0 (x : Nat) : Nat := rotr 2 x ^^^ rotr 13 x ^^^ rotr 22 x

/-- Big sigma-1 round function. -/
def bigSigma1 (x : Nat) : Nat := rotr 6 x ^^^ rotr 11 x ^^^ rotr 25 x

/-- Small sigma-0 message-schedule function. -/
def smallSigma0 (x : Nat) : Nat := rotr 7 x ^^^ rotr 18 x ^^^ (x >>> 3)

/-- Small sigma-1 message-schedule function. -/
def smallSigma1 (x : Nat) : Nat := rotr 17 x ^^^ rotr 19 x ^^^ (x >>> 10)

/-- Choice function; the complement of x inside 32 bits is wMod - 1 - x. -/
def chF (x y z : Nat) : Nat := (x &&& y) ^^^ ((wMod - 1 - x) &&& z)

/-- Majority function. -/
def majF (x y z : Nat) : Nat := (x &&& y) ^^^ (x &&& z) ^^^ (y &&& z)

/-- One round of the SHA-256 compression function. -/
def compressStep (st : Hash8) (kw : Nat × Nat) : Hash8 :=
  let t1 := (st.h + bigSigma1 st.e + chF st.e st.f st.g + kw.1 + kw.2) % wMod
  let t2 := (bigSigma0 st.a + majF st.a st.b st.c) % wMod
  ⟨(t1 + t2) % wMod, st.a, st.b, st.c, (st.d + t1) % wMod, st.e, st.f, st.g⟩

/-- Message-schedule extension; the accumulator holds the schedule so far in
reverse order, so index i of the accumulator is word t-1-i. -/
def extendW : Nat → List Nat → List Nat
  | 0, acc => acc
  | n + 1, acc =>
    let g := fun i => acc.getD i 0
    extendW n (((smallSigma1 (g 1) + g 6 + smallSigma0 (g 14) + g 15) % wMod) :: acc)

/-- The 64-word message schedule of one 16-word block. -/
def scheduleOf (block : List Nat) : List Nat := (extendW 48 block.reverse).reverse

/-- Compress one 16-word block into the running hash value. -/
def compressBlock (hs : Hash8) (block : List Nat) : Hash8 :=
  let st := (shaK.zip (scheduleOf block)).foldl compressStep hs
  ⟨(hs.a + st.a) % wMod, (hs.b + st.b) % wMod, (hs.c + st.c) % wMod, (hs.d + st.d) % wMod,
   (hs.e + st.e) % wMod, (hs.f + st.f) % wMod, (hs.g + st.g) % wMod, (hs.h + st.h) % wMod⟩

/-- Group bytes into big-endian 32-bit words (the padded input length is a
multiple of 4, so the trailing incomplete-group case never fires on it). -/
def wordsOfBytes : List Nat → List Nat
  | b0 :: b1 :: b2 :: b3 :: rest =>
    (b0 * 16777216 + b1 * 65536 + b2 * 256 + b3) :: wordsOfBytes rest
  | _ => []

/-- Big-endian 64-bit length field of the SHA-256 padding. -/
def lenBytes (n : Nat) : List Nat :=
  [n >>> 56 % 256, n >>> 48 % 256, n >>> 40 % 256, n >>> 32 % 256,
   n >>> 24 % 256, n >>> 16 % 256, n >>> 8 % 256, n % 256]

/-- SHA-256 padding: a 0x80 byte, zeros up to 56 mod 64, and the bit length. -/
def padMessage (msg : List Nat) : List Nat :=
  msg ++ 128 :: List.replicate ((64 + 55 - msg.length % 64) % 64) 0 ++ lenBytes (msg.length * 8)

/-- Fuel-driven split into 64-byte blocks; the fuel is the byte count, which
bounds the number of blocks. -/
def toBlocksFuel : Nat → List Nat → List (List Nat)
  | 0, _ => []
  | _, [] => []
  | fuel + 1, b :: bs => wordsOfBytes ((b :: bs).take 64) :: toBlocksFuel fuel ((b :: bs).drop 64)

/-- Split a padded message into 16-word blocks. -/
def toBlocks (bytes : List Nat) : List (List Nat) := toBlocksFuel bytes.length bytes

/-- The eight final hash words of SHA-256 on a byte list. -/
def sha256Words (msg : List Nat) : Hash8 :=
  (toBlocks (padMessage msg)).foldl compressBlock shaInit

/-- The lowercase hex digit character of a value below 16: digits start at
code point 48, letters a to f at 97, that is 87 + the value. -/
def hexDigit (n : Nat) : Char := Char.ofNat (if n < 10 then 48 + n else 87 + n)

/-- Eight-character lowercase hex rendering of one 32-bit word. -/
def toHex8 (w : Nat) : String :=
  String.mk [hexDigit (w >>> 28 % 16), hexDigit (w >>> 24 % 16), hexDigit (w >>> 20 % 16),
             hexDigit (w >>> 16 % 16), hexDigit (w >>> 12 % 16), hexDigit (w >>> 8 % 16),
             hexDigit (w >>> 4 % 16), hexDigit (w % 16)]

/-- hashlib sha256(...).hexdigest(): 64 lowercase hex characters. -/
def sha256Hex (msg : List Nat) : String :=
  let st := sha256Words msg
  toHex8 st.a ++ toHex8 st.b ++ toHex8 st.c ++ toHex8 st.d ++
  toHex8 st.e ++ toHex8 st.f ++ toHex8 st.g ++ toHex8 st.h

/-- UTF-8 encoding of one Unicode scalar value. -/
def utf8EncodeChar (c : Char) : List Nat :=
  let n := c.toNat
  if n < 128 then [n]
  else if n < 2048 then [192 + n / 64, 128 + n % 64]
  else if n < 65536 then [224 + n / 4096, 128 + n / 64 % 64, 128 + n % 64]
  else [240 + n / 262144, 128 + n / 4096 % 64, 128 + n / 64 % 64, 128 + n % 64]

/-- Python content.encode("utf-8") as a byte list. -/
def utf8Encode (s : String) : List Nat := s.data.flatMap utf8EncodeChar

/-- calculate_hash of both monitor classes:
hashlib.sha256(content.encode("utf-8")).hexdigest(). -/
def calculate_hash (content : String) : String := sha256Hex (utf8Encode content)

/-! ## Parsed DOM trees and the BeautifulSoup operations used by the sources

A RenderedDocument is modelled by its parse tree.  BeautifulSoup parsing is
deterministic, so the embedding takes the tree as the input of extraction; the
document root plays the role of the soup object (its own tag is never one of
the searched tags). -/

/-- A parsed markup node: an element with a tag and children, or a text node. -/
inductive Node where
  | text (s : String)
  | elem (tag : String) (children : List Node)

mutual

/-- Effect of tag.decompose() on one node: a noise-tagged element disappears
with its whole subtree, any other node is kept with its children cleaned. -/
def removeTagsOne (noise : List String) : Node → List Node
  | .text s => [.text s]
  | .elem t cs => if t ∈ noise then [] else [.elem t (removeTagsL noise cs)]

/-- removeTagsOne on a list of sibling nodes. -/
def removeTagsL (noise : List String) : List Node → List Node
  | [] => []
  | c :: cs => removeTagsOne noise c ++ removeTagsL noise cs

end

/-- Result of decomposing every element with a noise tag below the document
root (the root itself is the soup object and carries no matching tag). -/
def removeTags (noise : List String) : Node → Node
  | .text s => .text s
  | .elem t cs => .elem t (removeTagsL noise cs)

mutual

/-- soup.find_all(tags): every element whose tag is in the list, in document
order, descending into matches as BeautifulSoup does. -/
def findTags (tags : List String) : Node → List Node
  | .text _ => []
  | .elem t cs => (if t ∈ tags then [Node.elem t cs] else []) ++ findTagsL tags cs

/-- findTags over a list of sibling nodes. -/
def findTagsL (tags : List String) : List Node → List Node
  | [] => []
  | c :: cs => findTags tags c ++ findTagsL tags cs

end

mutual

/-- The descendant text-node strings of a node, in document order. -/
def textsN : Node → List String
  | .text s => [s]
  | .elem _ cs => textsL cs

/-- textsN over a list of sibling nodes. -/
def textsL : List Node → List String
  | [] => []
  | c :: cs => textsN c ++ textsL cs

end

/-- The stripped, non-empty descendant strings of a node, as used by
BeautifulSoup get_text with strip=True. -/
def cleanTexts (n : Node) : List String :=
  ((textsN n).map pyStrip).filter (fun s => s ≠ "")

/-- node.get_text(" ", strip=True): stripped non-empty descendant strings
joined by single spaces. -/
def getTextSpace (n : Node) : String := " ".intercalate (cleanTexts n)

/-- node.get_text(strip=True): stripped non-empty descendant strings
concatenated. -/
def getTextCat (n : Node) : String := String.join (cleanTexts n)

/-- The heading tags extracted by both monitors. -/
def headingTags : List String := ["h1", "h2", "h3"]

namespace MultiSiteMonitor

/-- The tags decomposed by MultiSiteMonitor.extract_content. -/
def noiseTags : List String := ["script", "style", "nav", "footer", "header", "aside"]

/-- The h1/h2/h3 texts of length at least 10, collected in document order
after noise removal (the titles list of extract_content before sorting). -/
def extractTitles (doc : Node) : List String :=
  ((findTags headingTags (removeTags noiseTags doc)).map getTextSpace).filter
    (fun t => 10 ≤ t.length)

/-- MultiSiteMonitor.extract_content: "\n".join(sorted(set(titles))).
set(...) followed by sorted(...) yields the unique sorted duplicate-free
list, which is insertion sort of any deduplication. -/
def extract_content (doc : Node) : String :=
  "\n".intercalate (sortStrings (extractTitles doc).dedup)

end MultiSiteMonitor

namespace URBSMonitor

/-- The tags decomposed by URBSMonitor.extract_content. -/
def noiseTags : List String :=
  ["script", "style", "meta", "link", "iframe", "noscript", "nav", "footer", "header", "aside"]

/-- Heading fragments: TÍTULO-prefixed h1/h2/h3 texts longer than 3. -/
def headingParts (d : Node) : List String :=
  (findTags headingTags d).filterMap fun h =>
    let t := getTextCat h
    if t ≠ "" ∧ 3 < t.length then some ("TÍTULO: " ++ t) else none

/-- Pipe-joined non-empty cell texts of one table row. -/
def rowText (tr : Node) : String :=
  " | ".intercalate (((findTags ["td", "th"] tr).map getTextCat).filter (fun s => s ≠ ""))

/-- Fragments contributed by one table: a TABELA marker followed by the
non-empty row texts of its first 30 rows, or nothing when every row is
empty.  (The source also skips rows whose cell list is empty, which is
equivalent to skipping their empty row text.) -/
def tableParts (tb : Node) : List String :=
  let rows := ((findTags ["tr"] tb).take 30).filterMap fun r =>
    let rt := rowText r
    if rt ≠ "" then some rt else none
  if rows = [] then [] else "TABELA:" :: rows

/-- Paragraph fragments: p texts longer than 30. -/
def paraParts (d : Node) : List String :=
  (findTags ["p"] d).filterMap fun p =>
    let t := getTextCat p
    if t ≠ "" ∧ 30 < t.length then some t else none

/-- List fragments: bullet-prefixed li texts longer than 10, collected per
enclosing ul/ol element as the source does. -/
def listParts (d : Node) : List String :=
  ((findTags ["ul", "ol"] d).map fun ul =>
    (findTags ["li"] ul).filterMap fun li =>
      let t := getTextCat li
      if t ≠ "" ∧ 10 < t.length then some ("• " ++ t) else none).flatten

/-- The content_parts list of URBSMonitor.extract_content, in source order:
headings, then tables, then paragraphs, then list items, after noise
removal. -/
def contentParts (doc : Node) : List String :=
  let d := removeTags noiseTags doc
  headingParts d ++ ((findTags ["table"] d).map tableParts).flatten
    ++ paraParts d ++ listParts d

/-- URBSMonitor.extract_content: the fragments joined by newlines in document
order, with no sorting and no deduplication. -/
def extract_content (doc : Node) : String := "\n".intercalate (contentParts doc)

end URBSMonitor

/-! ## Site identity and persisted state -/

namespace MultiSiteMonitor

/-- MultiSiteMonitor.get_site_name: the netloc with every occurrence of
"www." removed, cut at the first dot and uppercased. -/
def get_site_name (url : String) : String :=
  strUpper (firstLabel (pyReplace (netloc url) "www." ""))

/-- MultiSiteMonitor.get_site_hash_file as a path string. -/
def get_site_hash_file (url : String) : String :=
  "data/" ++ strLower (get_site_name url) ++ "_hash.json"

/-- MultiSiteMonitor.get_site_content_file as a path string. -/
def get_site_content_file (url : String) : String :=
  "data/" ++ strLower (get_site_name url) ++ "_content.txt"

end MultiSiteMonitor

/-- The persisted per-site record written by save_hash. -/
structure HashRecord where
  hash : String
  timestamp : String

/-- A hash file on disk: either a well-formed JSON record or one that
json.load cannot parse. -/
inductive StoredFile where
  | record (r : HashRecord)
  | corrupt

/-- The file system as seen by MultiSiteMonitor: hash files and content
snapshot files addressed by path. -/
structure FS where
  hashFiles : String → Option StoredFile
  contentFiles : String → Option String

/-- The empty file system (no record for any site). -/
def emptyFS : FS := ⟨fun _ => none, fun _ => none⟩

namespace MultiSiteMonitor

/-- MultiSiteMonitor.load_last_hash: empty string when the hash file does not
exist, the stored hash when it parses, and a raised exception (error) when
json.load fails on a corrupt file. -/
def load_last_hash (fs : FS) (url : String) : Except Unit String :=
  match fs.hashFiles (get_site_hash_file url) with
  | none => Except.ok ""
  | some (StoredFile.record r) => Except.ok r.hash
  | some StoredFile.corrupt => Except.error ()

/-- MultiSiteMonitor.save_hash: overwrite the hash file of the site with the
new hash and the current timestamp. -/
def save_hash (fs : FS) (url contentHash ts : String) : FS :=
  { fs with hashFiles := fun k =>
      if k = get_site_hash_file url then some (StoredFile.record ⟨contentHash, ts⟩)
      else fs.hashFiles k }

/-- MultiSiteMonitor.save_content: overwrite the content snapshot file. -/
def save_content (fs : FS) (url content : String) : FS :=
  { fs with contentFiles := fun k =>
      if k = get_site_content_file url then some content
      else fs.contentFiles k }

/-- MultiSiteMonitor.detect_change.  Mirrors the source line by line: the
viability check (truthiness or length below 50) returns False with no state
touched; then the new hash is computed, the previous hash loaded (an
exception there propagates before anything is written), the content snapshot
always saved, and the three-way comparison performed. -/
def detect_change (fs : FS) (url content ts : String) : Except Unit (Bool × FS) :=
  if content = "" ∨ content.length < 50 then Except.ok (false, fs)
  else
    let newHash := calculate_hash content
    match load_last_hash fs url with
    | Except.error e => Except.error e
    | Except.ok oldHash =>
      let fs₁ := save_content fs url content
      if oldHash = "" then Except.ok (false, save_hash fs₁ url newHash ts)
      else if newHash = oldHash then Except.ok (false, fs₁)
      else Except.ok (true, save_hash fs₁ url newHash ts)

end MultiSiteMonitor

/-- The file system as seen by URBSMonitor: one fixed hash file and one fixed
content file. -/
structure UrbsFS where
  hashFile : Option StoredFile
  contentFile : Option String

namespace URBSMonitor

/-- URBSMonitor.load_last_hash: empty string when the file does not exist,
and ALSO the empty string when reading or parsing fails, because the source
wraps the read in a bare try/except returning the empty string. -/
def load_last_hash (fs : UrbsFS) : String :=
  match fs.hashFile with
  | none => ""
  | some (StoredFile.record r) => r.hash
  | some StoredFile.corrupt => ""

/-- URBSMonitor.save_hash. -/
def save_hash (fs : UrbsFS) (contentHash ts : String) : UrbsFS :=
  { fs with hashFile := some (StoredFile.record ⟨contentHash, ts⟩) }

/-- URBSMonitor.save_content. -/
def save_content (fs : UrbsFS) (content : String) : UrbsFS :=
  { fs with contentFile := some content }

/-- URBSMonitor.detect_change: same state machine as the multi-site variant
but with viability threshold 100 and no exception path (all store errors are
swallowed by the source). -/
def detect_change (fs : UrbsFS) (content ts : String) : Bool × UrbsFS :=
  if content = "" ∨ content.length < 100 then (false, fs)
  else
    let newHash := calculate_hash content
    let oldHash := load_last_hash fs
    let fs₁ := save_content fs content
    if oldHash = "" then (false, save_hash fs₁ newHash ts)
    else if newHash = oldHash then (false, fs₁)
    else (true, save_hash fs₁ newHash ts)

end URBSMonitor

/-! ## The orchestrating run loop of MultiSiteMonitor

The fetch of one site is an external effect; its outcome for the run being
modelled is recorded in the site description, so that the loop logic (per-site
exception isolation, error collection, single batched notification) is the
code under verification. -/

/-- One configured site together with the outcome of get_site_content for it
in this run: either extracted content or the message of the exception the
fetch raised. -/
structure SiteSpec where
  url : String
  fetch : Except String String

/-- Outcome of processing one site inside the run loop. -/
structure SiteStep where
  changedUrl : Option String
  errorEntry : Option String
  fsOut : FS

/-- One iteration of the run loop body: a fetch exception or a store
exception inside detect_change is caught by the per-site handler and recorded
as an error entry; a detected change records the URL. -/
def processSite (fs : FS) (s : SiteSpec) (ts : String) : SiteStep :=
  match s.fetch with
  | Except.error e =>
    ⟨none, some (MultiSiteMonitor.get_site_name s.url ++ ": " ++ e), fs⟩
  | Except.ok content =>
    match MultiSiteMonitor.detect_change fs s.url content ts with
    | Except.error _ =>
      ⟨none, some (MultiSiteMonitor.get_site_name s.url ++ ": StoreError"), fs⟩
    | Except.ok (changed, fs₂) =>
      ⟨if changed then some s.url else none, none, fs₂⟩

/-- Accumulated state of the run loop. -/
structure RunAcc where
  changed : List String
  errors : List String
  fsOut : FS

/-- The run loop over the configured site list, in order. -/
def runSites (ts : String) : List SiteSpec → FS → RunAcc
  | [], fs => ⟨[], [], fs⟩
  | s :: rest, fs =>
    let st := processSite fs s ts
    let r := runSites ts rest st.fsOut
    ⟨st.changedUrl.toList ++ r.changed, st.errorEntry.toList ++ r.errors, r.fsOut⟩

/-- Result of MultiSiteMonitor.run: the changed URLs, the collected per-site
errors, and the batches passed to send_email_notification (one single batch
when the changed list is non-empty, none otherwise). -/
structure RunResult where
  changed : List String
  errors : List String
  notifierBatches : List (List String)
  fsOut : FS

/-- MultiSiteMonitor.run on a list of sites: process every site with per-site
exception isolation, then notify once with the full batch if anything
changed. -/
def run (sites : List SiteSpec) (fs : FS) (ts : String) : RunResult :=
  let r := runSites ts sites fs
  ⟨r.changed, r.errors, if r.changed = [] then [] else [r.changed], r.fsOut⟩

/-! ## The hardened retry policy around the fetch -/

/-- Observable actions of the retrying fetch. -/
inductive FetchEvent where
  | attempt (i : Nat)
  | backoff (seconds : Nat)
  | recreateEngine

/-- Modelled from the spec: the retry loop of the hardened variant is not
part of the two source files under src (their fetch functions make a single
attempt); section 4.1 of the spec describes it as up to 3 attempts per site,
a wait of attempt times 5 seconds after a failure, the rendering engine
discarded and recreated on the penultimate failure, and a terminal FetchError
after the last failure.  outcome gives the result of each numbered attempt;
remaining counts the attempts still allowed. -/
def retryLoop (outcome : Nat → Option String) :
    Nat → Nat → List FetchEvent → Except String String × List FetchEvent
  | _, 0, trace => (Except.error "FetchError", trace)
  | attempt, remaining + 1, trace =>
    let trace₁ := trace ++ [FetchEvent.attempt attempt]
    match outcome attempt with
    | some content => (Except.ok content, trace₁)
    | none =>
      if remaining = 0 then (Except.error "FetchError", trace₁)
      else
        let trace₂ := trace₁ ++ [FetchEvent.backoff (attempt * 5)]
        let trace₃ := if remaining = 1 then trace₂ ++ [FetchEvent.recreateEngine] else trace₂
        retryLoop outcome (attempt + 1) remaining trace₃

/-- Modelled from the spec: fetch one site under the retry budget of 3. -/
def fetchWithRetry (outcome : Nat → Option String) : Except String String × List FetchEvent :=
  retryLoop outcome 1 3 []

/-! ## Concrete fixtures used by witnesses and counterexamples -/

/-- A URL of the configured SITES list. -/
def url₀ : String := "https://www.urbs.curitiba.pr.gov.br/transporte/boletim-de-transportes"

/-- A timestamp value as written by datetime.now(LOCAL_TZ).isoformat(). -/
def ts₀ : String := "2026-01-01T00:00:00-03:00"

/-- A second timestamp. -/
def ts₁ : String := "2026-01-02T00:00:00-03:00"

/-- A viable content string of length 100 (above both thresholds). -/
def c100 : String :=
  "aaaaaaaaaaaaaaaaaaaaaaaaaaaaaaaaaaaaaaaaaaaaaaaaaaaaaaaaaaaaaaaaaaaaaaaaaaaaaaaaaaaaaaaaaaaaaaaaaaaa"

/-- A content string of length 60: viable for MultiSiteMonitor, rejected by
URBSMonitor. -/
def c60 : String := "bbbbbbbbbbbbbbbbbbbbbbbbbbbbbbbbbbbbbbbbbbbbbbbbbbbbbbbbbbbb"

/-- A content string of length 40: rejected by both variants. -/
def c40 : String := "cccccccccccccccccccccccccccccccccccccccc"

/-- A content string of length 51 used by the C5 witness. -/
def c51 : String := "TÍTULO: AAAAAAAAAAAAAAAAAAAAAAAAAAAAAAAAAA\nTÍTULO: B"

/-- The URBS store with a corrupt hash file. -/
def corruptUrbsFS : UrbsFS := ⟨some StoredFile.corrupt, none⟩

/-- The empty URBS store. -/
def emptyUrbsFS : UrbsFS := ⟨none, none⟩

/-- Document with two qualifying headings in one order. -/
def doc₁ : Node :=
  Node.elem "html" [Node.elem "body"
    [Node.elem "h1" [Node.text "AAAAAAAAAA"], Node.elem "h1" [Node.text "BBBBBBBBBB"]]]

/-- The same document with the two headings swapped. -/
def doc₂ : Node :=
  Node.elem "html" [Node.elem "body"
    [Node.elem "h1" [Node.text "BBBBBBBBBB"], Node.elem "h1" [Node.text "AAAAAAAAAA"]]]

/-- A store holding, for the hash file of url₀, exactly the fingerprint of
c60 (used to exercise the unchanged-content path). -/
def fsC6 : FS :=
  ⟨fun k => if k = MultiSiteMonitor.get_site_hash_file url₀
      then some (StoredFile.record ⟨calculate_hash c60, ts₀⟩) else none,
   fun _ => none⟩

/-- A URBS store holding exactly the fingerprint of c100. -/
def ufsC6 : UrbsFS := ⟨some (StoredFile.record ⟨calculate_hash c100, ts₀⟩), none⟩

/-- A store whose hash file for url₀ is corrupt. -/
def fsCorrupt : FS :=
  ⟨fun k => if k = MultiSiteMonitor.get_site_hash_file url₀ then some StoredFile.corrupt
      else none,
   fun _ => none⟩

/-- A site whose fetch succeeds in this run. -/
def siteOK : SiteSpec := ⟨url₀, Except.ok c60⟩

/-- A site whose fetch fails all retries in this run. -/
def siteFail : SiteSpec := ⟨"https://www.eueanatureza.com.br/ensaios_modelos", Except.error "FetchError"⟩

/-- Determination rule asserted by claim C10, stated from its words: the
first dot-separated label of the hostname after removing a LEADING "www."
prefix.  Defined only for comparison against get_site_name, which instead
removes every occurrence of the substring. -/
def stripLeadingWww (h : String) : String :=
  if leadMatch "www.".data h.data then ⟨h.data.drop 4⟩ else h

/-- The site label as described by claim C10. -/
def claimedSiteLabel (url : String) : String := firstLabel (stripLeadingWww (netloc url))

/-! ## Order lemmas for the Python string comparator -/

/-- lexLe is total. -/
theorem lexLe_total (a b : List Char) : lexLe a b = true ∨ lexLe b a = true := by
  induction a generalizing b with
  | nil => left; rfl
  | cons x xs ih =>
    cases b with
    | nil => right; rfl
    | cons y ys =>
      rcases lt_trichotomy x y with h | h | h
      · left; simp [lexLe, h]
      · subst h
        simpa [lexLe, lt_irrefl] using ih ys
      · right; simp [lexLe, h]

/-- lexLe is transitive. -/
theorem lexLe_trans (a b c : List Char) (h₁ : lexLe a b = true) (h₂ : lexLe b c = true) :
    lexLe a c = true := by
  induction a generalizing b c with
  | nil => rfl
  | cons x xs ih =>
    cases b with
    | nil => simp [lexLe] at h₁
    | cons y ys =>
      cases c with
      | nil => simp [lexLe] at h₂
      | cons z zs =>
        rcases lt_trichotomy x y with hxy | hxy | hxy
        · rcases lt_trichotomy y z with hyz | hyz | hyz
          · simp [lexLe, lt_trans hxy hyz]
          · subst hyz; simp [lexLe, hxy]
          · simp [lexLe, hyz, lt_asymm hyz] at h₂
        · subst hxy
          rcases lt_trichotomy x z with hyz | hyz | hyz
          · simp [lexLe, hyz]
          · subst hyz
            simp only [lexLe, lt_irrefl, if_false] at h₁ h₂ ⊢
            exact ih ys zs h₁ h₂
          · simp [lexLe, hyz, lt_asymm hyz] at h₂
        · simp [lexLe, hxy, lt_asymm hxy] at h₁

/-- lexLe is antisymmetric. -/
theorem lexLe_antisymm (a b : List Char) (h₁ : lexLe a b = true) (h₂ : lexLe b a = true) :
    a = b := by
  induction a generalizing b with
  | nil =>
    cases b with
    | nil => rfl
    | cons y ys => simp [lexLe] at h₂
  | cons x xs ih =>
    cases b with
    | nil => simp [lexLe] at h₁
    | cons y ys =>
      rcases lt_trichotomy x y with hxy | hxy | hxy
      · simp [lexLe, hxy, lt_asymm hxy] at h₂
      · subst hxy
        simp only [lexLe, lt_irrefl, if_false] at h₁ h₂
        rw [ih ys h₁ h₂]
      · simp [lexLe, hxy, lt_asymm hxy] at h₁

instance : IsTotal String strLeB := ⟨fun a b => lexLe_total a.data b.data⟩

instance : IsTrans String strLeB := ⟨fun a b c => lexLe_trans a.data b.data c.data⟩

instance : IsAntisymm String strLeB :=
  ⟨fun a b h₁ h₂ => by
    cases a; cases b
    exact congrArg String.mk (lexLe_antisymm _ _ h₁ h₂)⟩

/-- sortStrings maps permutable inputs to the same output. -/
theorem sortStrings_eq_of_perm (l₁ l₂ : List String) (h : List.Perm l₁ l₂) :
    sortStrings l₁ = sortStrings l₂ :=
  List.eq_of_perm_of_sorted
    (((List.perm_insertionSort _ _).trans h).trans (List.perm_insertionSort _ _).symm)
    (List.sorted_insertionSort _ _) (List.sorted_insertionSort _ _)

/-! ## Shape lemmas for the fingerprint -/

/-- A rendered word is eight characters. -/
theorem toHex8_length (w : Nat) : (toHex8 w).length = 8 := rfl

/-- A fingerprint is 64 hex characters. -/
theorem calculate_hash_length (s : String) : (calculate_hash s).length = 64 := by
  show (sha256Hex (utf8Encode s)).length = 64
  simp only [sha256Hex, String.length_append, toHex8_length]

/-- A fingerprint is never the empty string, so a stored fingerprint is never
confused with the absent marker used by load_last_hash. -/
theorem calculate_hash_ne_empty (s : String) : calculate_hash s ≠ "" := by
  intro h
  have hl := calculate_hash_length s
  rw [h] at hl
  exact absurd hl (by decide)

/-! ## Behaviour of the store operations -/

/-- load_last_hash on a missing record is the absent marker, not an error. -/
theorem load_last_hash_none (fs : FS) (url : String)
    (h : fs.hashFiles (MultiSiteMonitor.get_site_hash_file url) = none) :
    MultiSiteMonitor.load_last_hash fs url = Except.ok "" := by
  unfold MultiSiteMonitor.load_last_hash
  rw [h]

/-- load_last_hash on a well-formed record returns its hash. -/
theorem load_last_hash_record (fs : FS) (url : String) (r : HashRecord)
    (h : fs.hashFiles (MultiSiteMonitor.get_site_hash_file url) = some (StoredFile.record r)) :
    MultiSiteMonitor.load_last_hash fs url = Except.ok r.hash := by
  unfold MultiSiteMonitor.load_last_hash
  rw [h]

/-- load_last_hash on a corrupt record raises. -/
theorem load_last_hash_corrupt (fs : FS) (url : String)
    (h : fs.hashFiles (MultiSiteMonitor.get_site_hash_file url) = some StoredFile.corrupt) :
    MultiSiteMonitor.load_last_hash fs url = Except.error () := by
  unfold MultiSiteMonitor.load_last_hash
  rw [h]

/-- save_content does not touch any hash file. -/
theorem save_content_hashFiles (fs : FS) (url content : String) :
    (MultiSiteMonitor.save_content fs url content).hashFiles = fs.hashFiles := rfl

/-- save_hash stores the record at the hash file of the site. -/
theorem save_hash_stores (fs : FS) (url contentHash ts : String) :
    (MultiSiteMonitor.save_hash fs url contentHash ts).hashFiles
      (MultiSiteMonitor.get_site_hash_file url)
      = some (StoredFile.record ⟨contentHash, ts⟩) := by
  simp [MultiSiteMonitor.save_hash]

/-! ## Behaviour of detect_change in the three states of the machine -/

/-- Multi-site detect_change rejects non-viable content without touching the
store. -/
theorem detect_change_reject (fs : FS) (url content ts : String)
    (h : content = "" ∨ content.length < 50) :
    MultiSiteMonitor.detect_change fs url content ts = Except.ok (false, fs) := by
  unfold MultiSiteMonitor.detect_change
  rw [if_pos h]

/-- Multi-site detect_change on viable content with no stored record saves
the baseline and reports no change. -/
theorem detect_change_baseline (fs : FS) (url content ts : String)
    (hlen : ¬(content = "" ∨ content.length < 50))
    (hnone : fs.hashFiles (MultiSiteMonitor.get_site_hash_file url) = none) :
    MultiSiteMonitor.detect_change fs url content ts
      = Except.ok (false,
          MultiSiteMonitor.save_hash (MultiSiteMonitor.save_content fs url content)
            url (calculate_hash content) ts) := by
  unfold MultiSiteMonitor.detect_change
  rw [if_neg hlen, load_last_hash_none fs url hnone]
  rfl

/-- Multi-site detect_change on viable content whose fingerprint equals the
stored one only rewrites the content snapshot and reports no change. -/
theorem detect_change_same (fs : FS) (url content ts : String) (r : HashRecord)
    (hlen : ¬(content = "" ∨ content.length < 50))
    (hrec : fs.hashFiles (MultiSiteMonitor.get_site_hash_file url) = some (StoredFile.record r))
    (hh : r.hash = calculate_hash content) :
    MultiSiteMonitor.detect_change fs url content ts
      = Except.ok (false, MultiSiteMonitor.save_content fs url content) := by
  unfold MultiSiteMonitor.detect_change
  rw [if_neg hlen, load_last_hash_record fs url r hrec]
  have hne : r.hash ≠ "" := by
    rw [hh]; exact calculate_hash_ne_empty content
  dsimp only
  rw [if_neg hne, if_pos hh.symm]

/-- Multi-site detect_change with a corrupt stored record propagates the
exception of json.load before writing anything. -/
theorem detect_change_corrupt (fs : FS) (url content ts : String)
    (hlen : ¬(content = "" ∨ content.length < 50))
    (hcor : fs.hashFiles (MultiSiteMonitor.get_site_hash_file url) = some StoredFile.corrupt) :
    MultiSiteMonitor.detect_change fs url content ts = Except.error () := by
  unfold MultiSiteMonitor.detect_change
  rw [if_neg hlen, load_last_hash_corrupt fs url hcor]

/-- URBS detect_change rejects content below 100 characters without touching
the store. -/
theorem urbs_detect_change_reject (fs : UrbsFS) (content ts : String)
    (h : content = "" ∨ content.length < 100) :
    URBSMonitor.detect_change fs content ts = (false, fs) := by
  unfold URBSMonitor.detect_change
  rw [if_pos h]

/-- URBS detect_change on viable content with no stored record saves the
baseline and reports no change. -/
theorem urbs_detect_change_baseline (fs : UrbsFS) (content ts : String)
    (hlen : ¬(content = "" ∨ content.length < 100))
    (hnone : fs.hashFile = none) :
    URBSMonitor.detect_change fs content ts
      = (false, URBSMonitor.save_hash (URBSMonitor.save_content fs content)
          (calculate_hash content) ts) := by
  unfold URBSMonitor.detect_change
  rw [if_neg hlen]
  unfold URBSMonitor.load_last_hash
  rw [hnone]
  rfl

/-- URBS detect_change on viable content whose fingerprint equals the stored
one only rewrites the content snapshot and reports no change. -/
theorem urbs_detect_change_same (fs : UrbsFS) (content ts : String) (r : HashRecord)
    (hlen : ¬(content = "" ∨ content.length < 100))
    (hrec : fs.hashFile = some (StoredFile.record r))
    (hh : r.hash = calculate_hash content) :
    URBSMonitor.detect_change fs content ts
      = (false, URBSMonitor.save_content fs content) := by
  unfold URBSMonitor.detect_change
  rw [if_neg hlen]
  unfold URBSMonitor.load_last_hash
  rw [hrec]
  have hne : r.hash ≠ "" := by
    rw [hh]; exact calculate_hash_ne_empty content
  dsimp only
  rw [if_neg hne, if_pos hh.symm]

/-! ## Lemmas about the run loop -/

/-- Every site whose fetch failed in this run contributes its error entry to
the collected errors, wherever it sits in the list: later sites are still
processed after earlier failures. -/
theorem runSites_error_mem (ts : String) (sites : List SiteSpec) (fs : FS) (s : SiteSpec)
    (hs : s ∈ sites) (e : String) (he : s.fetch = Except.error e) :
    (MultiSiteMonitor.get_site_name s.url ++ ": " ++ e) ∈ (runSites ts sites fs).errors := by
  induction sites generalizing fs with
  | nil => cases hs
  | cons hd tl ih =>
    rcases List.mem_cons.mp hs with h | h
    · subst h
      simp [runSites, processSite, he]
    · simp only [runSites]
      exact List.mem_append.mpr (Or.inr (ih (processSite fs hd ts).fsOut h))

/-- Every URL reported as changed belongs to a configured site whose fetch
succeeded in this run. -/
theorem runSites_changed_from (ts : String) (sites : List SiteSpec) (fs : FS) (u : String)
    (hu : u ∈ (runSites ts sites fs).changed) :
    ∃ s, s ∈ sites ∧ s.url = u ∧ ∃ c, s.fetch = Except.ok c := by
  induction sites generalizing fs with
  | nil => simp [runSites] at hu
  | cons hd tl ih =>
    simp only [runSites] at hu
    rcases List.mem_append.mp hu with h | h
    · cases hfe : hd.fetch with
      | error e => simp [processSite, hfe] at h
      | ok c =>
        cases hdc : MultiSiteMonitor.detect_change fs hd.url c ts with
        | error err => simp [processSite, hfe, hdc] at h
        | ok p =>
          rcases p with ⟨changed, fs₂⟩
          cases changed with
          | false => simp [processSite, hfe, hdc] at h
          | true =>
            simp [processSite, hfe, hdc] at h
            exact ⟨hd, List.mem_cons_self hd tl, h.symm, c, hfe⟩
    · rcases ih (processSite fs hd ts).fsOut h with ⟨s, hmem, hrest⟩
      exact ⟨s, List.mem_cons_of_mem hd hmem, hrest⟩

/-! ## The claims -/

/-- C1: for every site and every normalized content passing the viability
check of its variant, detection with no stored fingerprint persists the new
fingerprint as the baseline, reports no change (returns false), and leaves a
stored fingerprint behind, regardless of the content. -/
theorem claim_C1 :
    (∀ (fs : FS) (url content ts : String),
        ¬(content = "" ∨ content.length < 50) →
        fs.hashFiles (MultiSiteMonitor.get_site_hash_file url) = none →
        ∃ fs₂, MultiSiteMonitor.detect_change fs url content ts = Except.ok (false, fs₂)
          ∧ fs₂.hashFiles (MultiSiteMonitor.get_site_hash_file url)
              = some (StoredFile.record ⟨calculate_hash content, ts⟩))
    ∧ (∀ (fs : UrbsFS) (content ts : String),
        ¬(content = "" ∨ content.length < 100) →
        fs.hashFile = none →
        ∃ fs₂, URBSMonitor.detect_change fs content ts = (false, fs₂)
          ∧ fs₂.hashFile = some (StoredFile.record ⟨calculate_hash content, ts⟩)) := by
  constructor
  · intro fs url content ts hlen hnone
    exact ⟨_, detect_change_baseline fs url content ts hlen hnone, save_hash_stores _ _ _ _⟩
  · intro fs content ts hlen hnone
    exact ⟨_, urbs_detect_change_baseline fs content ts hlen hnone, rfl⟩

/-- C1 witness: first detection of a 100-character content on the empty
stores of both variants. -/
theorem claim_C1_witness :
    (∃ fs₂, MultiSiteMonitor.detect_change emptyFS url₀ c100 ts₀ = Except.ok (false, fs₂)
      ∧ fs₂.hashFiles (MultiSiteMonitor.get_site_hash_file url₀)
          = some (StoredFile.record ⟨calculate_hash c100, ts₀⟩))
    ∧ (∃ fs₂, URBSMonitor.detect_change emptyUrbsFS c100 ts₀ = (false, fs₂)
      ∧ fs₂.hashFile = some (StoredFile.record ⟨calculate_hash c100, ts₀⟩)) :=
  ⟨claim_C1.1 emptyFS url₀ c100 ts₀ (by decide) rfl,
   claim_C1.2 emptyUrbsFS c100 ts₀ (by decide) rfl⟩

/-- C2 counterexample: the claim asserts that content of length 60 with an
empty store is accepted and establishes a baseline, for the detect operation
of both cited sources; URBSMonitor.detect_change instead rejects it (its
threshold is 100) and stores nothing. -/
theorem claim_C2_counterexample :
    c60.length = 60
    ∧ URBSMonitor.detect_change emptyUrbsFS c60 ts₀ = (false, emptyUrbsFS)
    ∧ (URBSMonitor.detect_change emptyUrbsFS c60 ts₀).2.hashFile = none :=
  ⟨by decide, rfl, rfl⟩

/-- C2 amended: content below the variant threshold (50 for MultiSiteMonitor,
100 for URBSMonitor) is rejected with no state mutation; length 40 falls
under both; content of length 60 with an empty store is accepted as baseline
by MultiSiteMonitor but rejected unchanged by URBSMonitor. -/
theorem claim_C2_amended :
    (∀ (fs : FS) (url content ts : String), content.length < 50 →
        MultiSiteMonitor.detect_change fs url content ts = Except.ok (false, fs))
    ∧ (∀ (fs : UrbsFS) (content ts : String), content.length < 100 →
        URBSMonitor.detect_change fs content ts = (false, fs))
    ∧ (∀ (fs : FS) (url content ts : String), content.length = 60 →
        fs.hashFiles (MultiSiteMonitor.get_site_hash_file url) = none →
        ∃ fs₂, MultiSiteMonitor.detect_change fs url content ts = Except.ok (false, fs₂)
          ∧ fs₂.hashFiles (MultiSiteMonitor.get_site_hash_file url)
              = some (StoredFile.record ⟨calculate_hash content, ts⟩)) := by
  refine ⟨?_, ?_, ?_⟩
  · intro fs url content ts h
    exact detect_change_reject fs url content ts (Or.inr h)
  · intro fs content ts h
    exact urbs_detect_change_reject fs content ts (Or.inr h)
  · intro fs url content ts h60 hnone
    have hlen : ¬(content = "" ∨ content.length < 50) := by
      rintro (h | h)
      · rw [h] at h60
        exact absurd h60 (by decide)
      · omega
    exact ⟨_, detect_change_baseline fs url content ts hlen hnone, save_hash_stores _ _ _ _⟩

/-- C2 witness: length 40 rejected by both variants with the store untouched,
and length 60 accepted as a baseline by the multi-site variant. -/
theorem claim_C2_witness :
    MultiSiteMonitor.detect_change emptyFS url₀ c40 ts₀ = Except.ok (false, emptyFS)
    ∧ URBSMonitor.detect_change emptyUrbsFS c40 ts₀ = (false, emptyUrbsFS)
    ∧ (∃ fs₂, MultiSiteMonitor.detect_change emptyFS url₀ c60 ts₀ = Except.ok (false, fs₂)
        ∧ fs₂.hashFiles (MultiSiteMonitor.get_site_hash_file url₀)
            = some (StoredFile.record ⟨calculate_hash c60, ts₀⟩)) :=
  ⟨claim_C2_amended.1 emptyFS url₀ c40 ts₀ (by decide),
   claim_C2_amended.2.1 emptyUrbsFS c40 ts₀ (by decide),
   claim_C2_amended.2.2 emptyFS url₀ c60 ts₀ (by decide) rfl⟩

/-- C3 counterexample: the two documents contain the same set of qualifying
fragments, only in swapped DOM order, yet URBSMonitor.extract_content maps
them to different normalized contents, because that variant joins fragments
in document order without deduplication or sorting. -/
theorem claim_C3_counterexample :
    (URBSMonitor.contentParts doc₁).toFinset = (URBSMonitor.contentParts doc₂).toFinset
    ∧ (MultiSiteMonitor.extractTitles doc₁).toFinset
        = (MultiSiteMonitor.extractTitles doc₂).toFinset
    ∧ URBSMonitor.extract_content doc₁ ≠ URBSMonitor.extract_content doc₂ :=
  ⟨by decide, by decide, by decide⟩

/-- C3 amended: order-independence holds for MultiSiteMonitor.extract_content
(fragments are deduplicated and sorted before joining): any two documents
with the same set of qualifying heading fragments normalize to identical
content.  URBSMonitor.extract_content joins fragments in DOM order without
sorting or deduplication, so its output is order-dependent. -/
theorem claim_C3_amended (d₁ d₂ : Node)
    (h : (MultiSiteMonitor.extractTitles d₁).toFinset
        = (MultiSiteMonitor.extractTitles d₂).toFinset) :
    MultiSiteMonitor.extract_content d₁ = MultiSiteMonitor.extract_content d₂ := by
  have hmem : ∀ a, a ∈ (MultiSiteMonitor.extractTitles d₁).dedup
      ↔ a ∈ (MultiSiteMonitor.extractTitles d₂).dedup := by
    intro a
    rw [List.mem_dedup, List.mem_dedup, ← List.mem_toFinset, ← List.mem_toFinset, h]
  have hperm := (List.perm_ext_iff_of_nodup (List.nodup_dedup _) (List.nodup_dedup _)).mpr hmem
  unfold MultiSiteMonitor.extract_content
  rw [sortStrings_eq_of_perm _ _ hperm]

/-- C3 witness: the swapped documents normalize identically under the
multi-site variant. -/
theorem claim_C3_witness :
    (MultiSiteMonitor.extractTitles doc₁).toFinset
        = (MultiSiteMonitor.extractTitles doc₂).toFinset
    ∧ MultiSiteMonitor.extract_content doc₁ = MultiSiteMonitor.extract_content doc₂ :=
  ⟨by decide, claim_C3_amended doc₁ doc₂ (by decide)⟩

/-- C4: normalization and hashing are pure functions of the rendered
document, so any two runs on equal inputs produce equal fingerprints, for
both variants of the pipeline. -/
theorem claim_C4 (d₁ d₂ : Node) (h : d₁ = d₂) :
    calculate_hash (MultiSiteMonitor.extract_content d₁)
        = calculate_hash (MultiSiteMonitor.extract_content d₂)
    ∧ calculate_hash (URBSMonitor.extract_content d₁)
        = calculate_hash (URBSMonitor.extract_content d₂) := by
  subst h
  exact ⟨rfl, rfl⟩

/-- C4 witness: two runs of normalize-then-hash on the same document. -/
theorem claim_C4_witness :
    calculate_hash (MultiSiteMonitor.extract_content doc₁)
        = calculate_hash (MultiSiteMonitor.extract_content doc₁)
    ∧ calculate_hash (URBSMonitor.extract_content doc₁)
        = calculate_hash (URBSMonitor.extract_content doc₁) :=
  claim_C4 doc₁ doc₁ rfl

/-- C5 counterexample: the scenario content of the claim has length 19, which
fails the viability threshold of 50, so detection on the empty store returns
false without storing any fingerprint: the asserted stored digest does not
exist. -/
theorem claim_C5_counterexample :
    ("TÍTULO: A\nTÍTULO: B" : String).length = 19
    ∧ MultiSiteMonitor.detect_change emptyFS url₀ "TÍTULO: A\nTÍTULO: B" ts₀
        = Except.ok (false, emptyFS)
    ∧ emptyFS.hashFiles (MultiSiteMonitor.get_site_hash_file url₀) = none :=
  ⟨by decide, rfl, rfl⟩

/-- C5 amended: the fingerprint is the SHA-256 hex digest of the UTF-8
encoding of the content; the digest of the scenario string is the stated
constant; and for any content that passes the viability check, first-run
detection stores exactly that digest and reports no change.  The scenario
string itself is however rejected by the viability check (length 19 below
50), so nothing is stored for it. -/
theorem claim_C5_amended :
    (∀ content : String, calculate_hash content = sha256Hex (utf8Encode content))
    ∧ calculate_hash "TÍTULO: A\nTÍTULO: B"
        = "8d148f702add2da429d1784254ba9152fb2aff13899f1e5cb745ac66b2adbcb9"
    ∧ (∀ (fs : FS) (url content ts : String),
        ¬(content = "" ∨ content.length < 50) →
        fs.hashFiles (MultiSiteMonitor.get_site_hash_file url) = none →
        ∃ fs₂, MultiSiteMonitor.detect_change fs url content ts = Except.ok (false, fs₂)
          ∧ fs₂.hashFiles (MultiSiteMonitor.get_site_hash_file url)
              = some (StoredFile.record ⟨calculate_hash content, ts⟩)) := by
  refine ⟨fun _ => rfl, by decide, ?_⟩
  intro fs url content ts hlen hnone
  exact ⟨_, detect_change_baseline fs url content ts hlen hnone, save_hash_stores _ _ _ _⟩

/-- C5 witness: a TÍTULO-shaped content long enough to pass viability is
stored as the baseline fingerprint on first detection. -/
theorem claim_C5_witness :
    ∃ fs₂, MultiSiteMonitor.detect_change emptyFS url₀ c51 ts₀ = Except.ok (false, fs₂)
      ∧ fs₂.hashFiles (MultiSiteMonitor.get_site_hash_file url₀)
          = some (StoredFile.record ⟨calculate_hash c51, ts₀⟩) :=
  claim_C5_amended.2.2 emptyFS url₀ c51 ts₀ (by decide) rfl

/-- C6: with an established baseline, detection of content whose fingerprint
equals the stored one reports no change and leaves every stored fingerprint
record (hash and timestamp) untouched, and repeating the detection reports no
change again; in both variants. -/
theorem claim_C6 :
    (∀ (fs : FS) (url content ts₁ ts₂ : String) (r : HashRecord),
        ¬(content = "" ∨ content.length < 50) →
        fs.hashFiles (MultiSiteMonitor.get_site_hash_file url) = some (StoredFile.record r) →
        r.hash = calculate_hash content →
        ∃ fs₂, MultiSiteMonitor.detect_change fs url content ts₁ = Except.ok (false, fs₂)
          ∧ fs₂.hashFiles = fs.hashFiles
          ∧ ∃ fs₃, MultiSiteMonitor.detect_change fs₂ url content ts₂ = Except.ok (false, fs₃)
            ∧ fs₃.hashFiles = fs.hashFiles)
    ∧ (∀ (fs : UrbsFS) (content ts₁ ts₂ : String) (r : HashRecord),
        ¬(content = "" ∨ content.length < 100) →
        fs.hashFile = some (StoredFile.record r) →
        r.hash = calculate_hash content →
        ∃ fs₂, URBSMonitor.detect_change fs content ts₁ = (false, fs₂)
          ∧ fs₂.hashFile = fs.hashFile
          ∧ ∃ fs₃, URBSMonitor.detect_change fs₂ content ts₂ = (false, fs₃)
            ∧ fs₃.hashFile = fs.hashFile) := by
  constructor
  · intro fs url content ts₁ ts₂ r hlen hrec hh
    refine ⟨_, detect_change_same fs url content ts₁ r hlen hrec hh, rfl, ?_⟩
    exact ⟨_, detect_change_same _ url content ts₂ r hlen hrec hh, rfl⟩
  · intro fs content ts₁ ts₂ r hlen hrec hh
    refine ⟨_, urbs_detect_change_same fs content ts₁ r hlen hrec hh, rfl, ?_⟩
    exact ⟨_, urbs_detect_change_same _ content ts₂ r hlen hrec hh, rfl⟩

/-- C6 witness: stores already holding the fingerprint of the fetched content
are left unmodified by two consecutive detections in both variants. -/
theorem claim_C6_witness :
    (∃ fs₂, MultiSiteMonitor.detect_change fsC6 url₀ c60 ts₀ = Except.ok (false, fs₂)
      ∧ fs₂.hashFiles = fsC6.hashFiles
      ∧ ∃ fs₃, MultiSiteMonitor.detect_change fs₂ url₀ c60 ts₁ = Except.ok (false, fs₃)
        ∧ fs₃.hashFiles = fsC6.hashFiles)
    ∧ (∃ fs₂, URBSMonitor.detect_change ufsC6 c100 ts₀ = (false, fs₂)
      ∧ fs₂.hashFile = ufsC6.hashFile
      ∧ ∃ fs₃, URBSMonitor.detect_change fs₂ c100 ts₁ = (false, fs₃)
        ∧ fs₃.hashFile = ufsC6.hashFile) :=
  ⟨claim_C6.1 fsC6 url₀ c60 ts₀ ts₁ ⟨calculate_hash c60, ts₀⟩ (by decide) (by simp [fsC6]) rfl,
   claim_C6.2 ufsC6 c100 ts₀ ts₁ ⟨calculate_hash c100, ts₀⟩ (by decide) rfl rfl⟩

/-- C7: the run over any configured site list is a total function whose
notifier is invoked exactly once with the full batch when the changed list is
non-empty and not at all otherwise; every site whose fetch failed is recorded
as an error (later sites are still processed), and every notified URL belongs
to a site whose fetch succeeded, so a failing site is never notified. -/
theorem claim_C7 (sites : List SiteSpec) (fs : FS) (ts : String) :
    (run sites fs ts).notifierBatches
        = (if (run sites fs ts).changed = [] then [] else [(run sites fs ts).changed])
    ∧ (∀ s ∈ sites, ∀ e, s.fetch = Except.error e →
        (MultiSiteMonitor.get_site_name s.url ++ ": " ++ e) ∈ (run sites fs ts).errors)
    ∧ (∀ u ∈ (run sites fs ts).changed,
        ∃ s, s ∈ sites ∧ s.url = u ∧ ∃ c, s.fetch = Except.ok c) := by
  refine ⟨rfl, ?_, ?_⟩
  · intro s hs e he
    exact runSites_error_mem ts sites fs s hs e he
  · intro u hu
    exact runSites_changed_from ts sites fs u hu

/-- C7 witness: a run over a succeeding site and a failing site records the
failure and notifies only according to the changed batch. -/
theorem claim_C7_witness :
    (MultiSiteMonitor.get_site_name siteFail.url ++ ": FetchError")
        ∈ (run [siteOK, siteFail] emptyFS ts₀).errors
    ∧ (run [siteOK, siteFail] emptyFS ts₀).notifierBatches
        = (if (run [siteOK, siteFail] emptyFS ts₀).changed = [] then []
           else [(run [siteOK, siteFail] emptyFS ts₀).changed]) := by
  have h := claim_C7 [siteOK, siteFail] emptyFS ts₀
  exact ⟨h.2.1 siteFail (by simp) "FetchError" rfl, h.1⟩

/-- C8 counterexample: in the URBS variant a corrupt stored record is
indistinguishable from an absent one — load_last_hash returns the absent
marker for both — and detection on a corrupt store silently re-baselines and
reports no change instead of failing, contradicting the claim that
corruption must surface as a failure for the detection of that site. -/
theorem claim_C8_counterexample :
    URBSMonitor.load_last_hash corruptUrbsFS = ""
    ∧ URBSMonitor.load_last_hash emptyUrbsFS = ""
    ∧ (URBSMonitor.detect_change corruptUrbsFS c100 ts₀).1 = false
    ∧ (URBSMonitor.detect_change corruptUrbsFS c100 ts₀).2.hashFile
        = some (StoredFile.record ⟨calculate_hash c100, ts₀⟩) :=
  ⟨rfl, rfl, rfl, rfl⟩

/-- C8 amended: loading an absent record yields the absent marker and never
an error, and a well-formed record yields its hash, in the multi-site
variant; there a corrupt record makes load and hence the detection of that
site fail.  In the URBS variant every load failure, including corruption, is
swallowed and treated as absent. -/
theorem claim_C8_amended :
    (∀ (fs : FS) (url : String),
        fs.hashFiles (MultiSiteMonitor.get_site_hash_file url) = none →
        MultiSiteMonitor.load_last_hash fs url = Except.ok "")
    ∧ (∀ (fs : FS) (url : String) (r : HashRecord),
        fs.hashFiles (MultiSiteMonitor.get_site_hash_file url) = some (StoredFile.record r) →
        MultiSiteMonitor.load_last_hash fs url = Except.ok r.hash)
    ∧ (∀ (fs : FS) (url : String),
        fs.hashFiles (MultiSiteMonitor.get_site_hash_file url) = some StoredFile.corrupt →
        MultiSiteMonitor.load_last_hash fs url = Except.error ()
        ∧ ∀ content ts, ¬(content = "" ∨ content.length < 50) →
            MultiSiteMonitor.detect_change fs url content ts = Except.error ())
    ∧ (∀ fs : UrbsFS, fs.hashFile = some StoredFile.corrupt →
        URBSMonitor.load_last_hash fs = "") := by
  refine ⟨load_last_hash_none, load_last_hash_record, ?_, ?_⟩
  · intro fs url h
    exact ⟨load_last_hash_corrupt fs url h, fun content ts hlen =>
      detect_change_corrupt fs url content ts hlen h⟩
  · intro fs h
    unfold URBSMonitor.load_last_hash
    rw [h]

/-- C8 witness: the three load outcomes and the failing detection at concrete
stores. -/
theorem claim_C8_witness :
    MultiSiteMonitor.load_last_hash emptyFS url₀ = Except.ok ""
    ∧ MultiSiteMonitor.load_last_hash fsCorrupt url₀ = Except.error ()
    ∧ MultiSiteMonitor.detect_change fsCorrupt url₀ c100 ts₀ = Except.error ()
    ∧ URBSMonitor.load_last_hash corruptUrbsFS = "" := by
  have h := claim_C8_amended
  have hc := h.2.2.1 fsCorrupt url₀ (by simp [fsCorrupt])
  exact ⟨h.1 emptyFS url₀ rfl, hc.1, hc.2 c100 ts₀ (by decide), h.2.2.2 corruptUrbsFS rfl⟩

/-- C9: under the modelled hardened retry policy, a fetch raises the terminal
FetchError exactly when all 3 attempts fail; in that case the observable
trace is attempt 1, a 5 second backoff, attempt 2, a 10 second backoff, the
engine recreation after the penultimate failure, and attempt 3; and a success
at any attempt stops the loop with the content and exactly the backoffs of
the failures before it. -/
theorem claim_C9 (f : Nat → Option String) :
    ((fetchWithRetry f).1 = Except.error "FetchError"
        ↔ f 1 = none ∧ f 2 = none ∧ f 3 = none)
    ∧ (f 1 = none → f 2 = none → f 3 = none →
        (fetchWithRetry f).2
          = [FetchEvent.attempt 1, FetchEvent.backoff 5, FetchEvent.attempt 2,
             FetchEvent.backoff 10, FetchEvent.recreateEngine, FetchEvent.attempt 3])
    ∧ (∀ c, f 1 = some c → fetchWithRetry f = (Except.ok c, [FetchEvent.attempt 1]))
    ∧ (∀ c, f 1 = none → f 2 = some c →
        fetchWithRetry f = (Except.ok c,
          [FetchEvent.attempt 1, FetchEvent.backoff 5, FetchEvent.attempt 2]))
    ∧ (∀ c, f 1 = none → f 2 = none → f 3 = some c →
        fetchWithRetry f = (Except.ok c,
          [FetchEvent.attempt 1, FetchEvent.backoff 5, FetchEvent.attempt 2,
           FetchEvent.backoff 10, FetchEvent.recreateEngine, FetchEvent.attempt 3])) := by
  cases h1 : f 1 <;> cases h2 : f 2 <;> cases h3 : f 3 <;>
    simp [fetchWithRetry, retryLoop, h1, h2, h3]

/-- C9 witness: the all-failures outcome exhausts the budget with the full
backoff and recreation trace. -/
theorem claim_C9_witness :
    (fetchWithRetry (fun _ => none)).1 = Except.error "FetchError"
    ∧ (fetchWithRetry (fun _ => none)).2
        = [FetchEvent.attempt 1, FetchEvent.backoff 5, FetchEvent.attempt 2,
           FetchEvent.backoff 10, FetchEvent.recreateEngine, FetchEvent.attempt 3] := by
  have h := claim_C9 (fun _ => none)
  exact ⟨h.1.mpr ⟨rfl, rfl, rfl⟩, h.2.1 rfl rfl rfl⟩

/-- C10 counterexample: the two URLs agree on the first hostname label after
removing a leading "www." (the determination rule asserted by the claim),
yet get_site_name and both derived file paths differ, because the source
removes every occurrence of the substring "www." before splitting. -/
theorem claim_C10_counterexample :
    claimedSiteLabel "https://awww.b.com/x" = claimedSiteLabel "https://awww.c.com/y"
    ∧ MultiSiteMonitor.get_site_name "https://awww.b.com/x"
        ≠ MultiSiteMonitor.get_site_name "https://awww.c.com/y"
    ∧ MultiSiteMonitor.get_site_hash_file "https://awww.b.com/x"
        ≠ MultiSiteMonitor.get_site_hash_file "https://awww.c.com/y"
    ∧ MultiSiteMonitor.get_site_content_file "https://awww.b.com/x"
        ≠ MultiSiteMonitor.get_site_content_file "https://awww.c.com/y" :=
  ⟨by decide, by decide, by decide, by decide⟩

/-- C10 amended: the site label, and with it both persisted file paths, is
determined by the first dot-separated label of the hostname after removing
every occurrence of the substring "www." (not only a leading one): any two
URLs agreeing on that derived label share the site label, the fingerprint
file and the content file. -/
theorem claim_C10_amended (u₁ u₂ : String)
    (h : firstLabel (pyReplace (netloc u₁) "www." "")
        = firstLabel (pyReplace (netloc u₂) "www." "")) :
    MultiSiteMonitor.get_site_name u₁ = MultiSiteMonitor.get_site_name u₂
    ∧ MultiSiteMonitor.get_site_hash_file u₁ = MultiSiteMonitor.get_site_hash_file u₂
    ∧ MultiSiteMonitor.get_site_content_file u₁ = MultiSiteMonitor.get_site_content_file u₂ := by
  have hn : MultiSiteMonitor.get_site_name u₁ = MultiSiteMonitor.get_site_name u₂ := by
    unfold MultiSiteMonitor.get_site_name
    rw [h]
  refine ⟨hn, ?_, ?_⟩
  · unfold MultiSiteMonitor.get_site_hash_file
    rw [hn]
  · unfold MultiSiteMonitor.get_site_content_file
    rw [hn]

/-- C10 witness: two distinct URLs of the same domain, one with the www
prefix and one without, share the fingerprint file path. -/
theorem claim_C10_witness :
    firstLabel (pyReplace (netloc "https://www.urbs.curitiba.pr.gov.br/transporte") "www." "")
        = firstLabel (pyReplace (netloc "https://urbs.curitiba.pr.gov.br/outra-pagina") "www." "")
    ∧ MultiSiteMonitor.get_site_hash_file "https://www.urbs.curitiba.pr.gov.br/transporte"
        = MultiSiteMonitor.get_site_hash_file "https://urbs.curitiba.pr.gov.br/outra-pagina" :=
  ⟨by decide,
   (claim_C10_amended "https://www.urbs.curitiba.pr.gov.br/transporte"
      "https://urbs.curitiba.pr.gov.br/outra-pagina" (by decide)).2.1⟩
